import Mathlib

/-!
Verification of the IBC per-block bookkeeping core
(`src/app/src/ibc/component.rs`): consensus-state commitment at block
start, client-counter seeding at genesis, and the no-op block-end and
epoch-end hooks.
-/

namespace Penumbra

/-- Byte sequences (app hashes, validator-set hashes) as lists of naturals. -/
abbrev Bytes := List Nat

/-- IBC `Height`: a (revision number, revision height) pair, as in
`ibc::core::ics02_client::height::Height`. -/
structure Height where
  revision_number : Nat
  revision_height : Nat
  deriving DecidableEq

/-- The error kinds of this core; `invariantViolation` is what
`Height::new` signals on a zero revision height. -/
inductive IbcError where
  | invariantViolation
  deriving DecidableEq

/-- Modelled from the spec: `Height::new(revision_number, revision_height)`
(provided by the external `ibc` crate, not under `src/`) fails with an
InvariantViolation exactly when `revision_height == 0`, and otherwise
returns a `Height` carrying both arguments unchanged. -/
def Height.new (revision_number revision_height : Nat) : Except IbcError Height :=
  if revision_height = 0 then .error .invariantViolation
  else .ok ⟨revision_number, revision_height⟩

/-- `ibc::clients::ics07_tendermint::consensus_state::ConsensusState`: the
commitment root, timestamp and next-validators hash taken from a header. -/
structure TendermintConsensusState where
  root : Bytes
  timestamp : Nat
  next_validators_hash : Bytes
  deriving DecidableEq

/-- `TendermintConsensusState::new`: packs its three arguments into a
record with no transformation. -/
def TendermintConsensusState.new (root : Bytes) (timestamp : Nat)
    (next_validators_hash : Bytes) : TendermintConsensusState :=
  ⟨root, timestamp, next_validators_hash⟩

/-- The fields of `begin_block.header` that `begin_block` reads:
`app_hash`, `time`, `next_validators_hash` and the block `height`. -/
structure Header where
  app_hash : Bytes
  time : Nat
  next_validators_hash : Bytes
  height : Nat
  deriving DecidableEq

/-- `abci::request::BeginBlock`, restricted to the header it carries. -/
structure BeginBlock where
  header : Header
  deriving DecidableEq

/-- `abci::request::EndBlock` (its contents are never read by this core). -/
structure EndBlock where
  height : Nat
  deriving DecidableEq

/-- `penumbra_chain::genesis::AppState`, abstracted: `init_chain` never
reads it, so only its identity matters for the claims. -/
structure AppState where
  data : Bytes
  deriving DecidableEq

/-- The abstract key space of the storage collaborator.  Keys derived from
distinct Heights never collide (spec §6), so consensus-state keys are
indexed by `Height`; `other` stands for every unrelated key. -/
inductive StateKey where
  | clientCounter
  | consensusState (h : Height)
  | other (k : String)
  deriving DecidableEq

/-- Values held in chain state: the client counter, a consensus-state
record, or raw bytes at an unrelated key. -/
inductive StateValue where
  | counter (c : Nat)
  | consensus (cs : TendermintConsensusState)
  | raw (bs : Bytes)
  deriving DecidableEq

/-- Chain state as exposed by the storage collaborator: a mapping from
keys to optional values. -/
def ChainState := StateKey → Option StateValue

/-- Modelled from the spec: `put_client_counter` (defined in
`ibc/component/client.rs`, which is not under `src/`) writes the client
counter at its dedicated key via the storage collaborator's `put`. -/
def put_client_counter (c : Nat) (s : ChainState) : ChainState :=
  fun k => if k = .clientCounter then some (.counter c) else s k

/-- Modelled from the spec: `get_client_counter` reads back the client
counter, absent if none was written. -/
def get_client_counter (s : ChainState) : Option Nat :=
  match s .clientCounter with
  | some (.counter c) => some c
  | _ => none

/-- Modelled from the spec: `put_penumbra_consensus_state` (defined in
`ibc/component/client.rs`, which is not under `src/`) writes the record
at the key deterministically derived from `height`; the storage
collaborator's `put` replaces any previous value at that key. -/
def put_penumbra_consensus_state (height : Height)
    (cs : TendermintConsensusState) (s : ChainState) : ChainState :=
  fun k => if k = .consensusState height then some (.consensus cs) else s k

/-- Modelled from the spec: `get_penumbra_consensus_state` returns the
exact record previously written at `height`, or absent if none exists. -/
def get_penumbra_consensus_state (height : Height) (s : ChainState) :
    Option TendermintConsensusState :=
  match s (.consensusState height) with
  | some (.consensus cs) => some cs
  | _ => none

namespace IBCComponent

/-- `IBCComponent::init_chain`: sets the initial client count to 0 and
ignores the genesis app state. -/
def init_chain (state : ChainState) (_app_state : AppState) : ChainState :=
  put_client_counter 0 state

/-- `IBCComponent::begin_block`: derives a consensus state from the
header's app hash, time and next-validators hash, constructs
`Height::new(0, header.height)` (fatal on zero height, modelling the
`expect`), and stores the record at that height. -/
def begin_block (state : ChainState) (bb : BeginBlock) :
    Except IbcError ChainState :=
  let commitment_root : Bytes := bb.header.app_hash
  let cs := TendermintConsensusState.new commitment_root bb.header.time
    bb.header.next_validators_hash
  let revision_number := 0
  match Height.new revision_number bb.header.height with
  | .error e => .error e
  | .ok height => .ok (put_penumbra_consensus_state height cs state)

/-- `IBCComponent::end_block`: empty body, the state is untouched. -/
def end_block (state : ChainState) (_end_block : EndBlock) : ChainState :=
  state

/-- `IBCComponent::end_epoch`: returns `Ok(())`, the state is untouched. -/
def end_epoch (state : ChainState) : Except IbcError ChainState :=
  .ok state

end IBCComponent

/-- The record `begin_block` derives from a header, for stating theorems. -/
def recordOfHeader (hd : Header) : TendermintConsensusState :=
  TendermintConsensusState.new hd.app_hash hd.time hd.next_validators_hash

/-! Helper lemmas shared by the claim theorems. -/

/-- When the header height is nonzero, `begin_block` succeeds and the
result is exactly the input state with the derived record written at
`Height{0, header.height}`. -/
theorem begin_block_eq_ok (s : ChainState) (bb : BeginBlock)
    (h : bb.header.height ≠ 0) :
    IBCComponent.begin_block s bb =
      .ok (put_penumbra_consensus_state ⟨0, bb.header.height⟩
        (recordOfHeader bb.header) s) := by
  unfold IBCComponent.begin_block Height.new recordOfHeader
  simp [h]

/-- When the header height is zero, `begin_block` fails with the
invariant violation raised by `Height::new`. -/
theorem begin_block_eq_err (s : ChainState) (bb : BeginBlock)
    (h : bb.header.height = 0) :
    IBCComponent.begin_block s bb = .error .invariantViolation := by
  unfold IBCComponent.begin_block Height.new
  simp [h]

/-- Reading the height just written returns the written record. -/
theorem get_put_same (H : Height) (cs : TendermintConsensusState)
    (s : ChainState) :
    get_penumbra_consensus_state H (put_penumbra_consensus_state H cs s) =
      some cs := by
  unfold get_penumbra_consensus_state put_penumbra_consensus_state
  simp

/-- Reading any other height is unaffected by a write. -/
theorem get_put_other (H H' : Height) (cs : TendermintConsensusState)
    (s : ChainState) (h : H' ≠ H) :
    get_penumbra_consensus_state H' (put_penumbra_consensus_state H cs s) =
      get_penumbra_consensus_state H' s := by
  unfold get_penumbra_consensus_state put_penumbra_consensus_state
  simp [h]

/-- A consensus-state write leaves every other key untouched. -/
theorem put_cs_frame (H : Height) (cs : TendermintConsensusState)
    (s : ChainState) (k : StateKey) (hk : k ≠ .consensusState H) :
    put_penumbra_consensus_state H cs s k = s k := by
  unfold put_penumbra_consensus_state
  simp [hk]

/-- A successful `begin_block` forces a nonzero header height. -/
theorem height_ne_zero_of_begin_block_ok (s s' : ChainState)
    (bb : BeginBlock) (hstep : IBCComponent.begin_block s bb = .ok s') :
    bb.header.height ≠ 0 := by
  intro h0
  rw [begin_block_eq_err s bb h0] at hstep
  cases hstep

/-! Claim theorems. -/

/-- Claim C1: for every header with height > 0 passed to `begin_block`, the
record stored at `Height{0, header.height}` is exactly the consensus state
built from the header's app hash, timestamp and next-validators hash, with
no transformation, truncation or reordering of fields. -/
theorem begin_block_stores_exact_record (s : ChainState) (bb : BeginBlock)
    (hpos : 0 < bb.header.height) :
    ∃ s', IBCComponent.begin_block s bb = .ok s' ∧
      get_penumbra_consensus_state ⟨0, bb.header.height⟩ s' =
        some (TendermintConsensusState.new bb.header.app_hash bb.header.time
          bb.header.next_validators_hash) := by
  refine ⟨_, begin_block_eq_ok s bb (Nat.pos_iff_ne_zero.mp hpos), ?_⟩
  exact get_put_same _ _ _

/-- Claim C1 witness: a concrete block at height 3 over the empty state. -/
theorem begin_block_stores_exact_record_witness :
    ∃ s', IBCComponent.begin_block (fun _ => none) ⟨⟨[1], 5, [2], 3⟩⟩ = .ok s' ∧
      get_penumbra_consensus_state ⟨0, 3⟩ s' =
        some (TendermintConsensusState.new [1] 5 [2]) :=
  begin_block_stores_exact_record (fun _ => none) ⟨⟨[1], 5, [2], 3⟩⟩ (by decide)

/-- Claim C2: `Height::new(0, 0)` fails with an InvariantViolation and so
does `begin_block` on a zero-height header, while for every positive
height `Height::new(0, h)` round-trips both fields exactly and
`begin_block` completes without error. -/
theorem begin_block_fatal_iff_zero_height (h : Nat) (hpos : 0 < h)
    (s : ChainState) (bb0 bb1 : BeginBlock)
    (h0 : bb0.header.height = 0) (h1 : 0 < bb1.header.height) :
    Height.new 0 0 = .error .invariantViolation ∧
    Height.new 0 h = .ok ⟨0, h⟩ ∧
    IBCComponent.begin_block s bb0 = .error .invariantViolation ∧
    ∃ s', IBCComponent.begin_block s bb1 = .ok s' := by
  refine ⟨rfl, ?_, begin_block_eq_err s bb0 h0,
    ⟨_, begin_block_eq_ok s bb1 (Nat.pos_iff_ne_zero.mp h1)⟩⟩
  unfold Height.new
  simp [Nat.pos_iff_ne_zero.mp hpos]

/-- Claim C2 witness: height 3 round-trips; a header at height 0 is fatal
and one at height 2 succeeds, over the empty state. -/
theorem begin_block_fatal_iff_zero_height_witness :
    Height.new 0 0 = .error .invariantViolation ∧
    Height.new 0 3 = .ok ⟨0, 3⟩ ∧
    IBCComponent.begin_block (fun _ => none) ⟨⟨[], 0, [], 0⟩⟩ =
      .error .invariantViolation ∧
    ∃ s', IBCComponent.begin_block (fun _ => none) ⟨⟨[], 0, [], 2⟩⟩ = .ok s' :=
  begin_block_fatal_iff_zero_height 3 (by decide) (fun _ => none)
    ⟨⟨[], 0, [], 0⟩⟩ ⟨⟨[], 0, [], 2⟩⟩ rfl (by decide)

/-- Claim C5: reading the client counter immediately after `init_chain`
yields 0, for every prior state and every genesis app state. -/
theorem init_chain_counter_reads_zero (s : ChainState) (a : AppState) :
    get_client_counter (IBCComponent.init_chain s a) = some 0 := rfl

/-- Claim C7: `end_block` takes no action; the resulting state is the
input state, for every state and every end-block context. -/
theorem end_block_is_noop (s : ChainState) (eb : EndBlock) :
    IBCComponent.end_block s eb = s := rfl

/-- Claim C8: `end_epoch` takes no action and always returns success with
the state unchanged, never an error. -/
theorem end_epoch_is_noop_ok (s : ChainState) :
    IBCComponent.end_epoch s = .ok s := rfl

/-- Claim C10: `init_chain` ignores its genesis app-state argument: the
resulting states of two runs from the same storage state coincide. -/
theorem init_chain_ignores_app_state (s : ChainState) (a1 a2 : AppState) :
    IBCComponent.init_chain s a1 = IBCComponent.init_chain s a2 := rfl

/-- Claim C3: the consensus-state store is append-only under block
processing: a record written at height `H` survives processing a block
whose height differs, and reading `H` afterwards returns that record. -/
theorem consensus_store_append_only (s s' : ChainState) (H : Height)
    (r : TendermintConsensusState) (bb : BeginBlock)
    (hr : get_penumbra_consensus_state H s = some r)
    (hne : H ≠ ⟨0, bb.header.height⟩)
    (hstep : IBCComponent.begin_block s bb = .ok s') :
    get_penumbra_consensus_state H s' = some r := by
  rw [begin_block_eq_ok s bb (height_ne_zero_of_begin_block_ok s s' bb hstep)]
    at hstep
  injection hstep with hstep
  subst hstep
  rw [get_put_other _ _ _ _ hne]
  exact hr

/-- Claim C3 witness: the record written at height 1 is intact after a
block at height 2 is processed. -/
theorem consensus_store_append_only_witness :
    get_penumbra_consensus_state ⟨0, 1⟩
      (put_penumbra_consensus_state ⟨0, 2⟩ (recordOfHeader ⟨[9], 7, [8], 2⟩)
        (put_penumbra_consensus_state ⟨0, 1⟩
          (TendermintConsensusState.new [1] 2 [3]) (fun _ => none))) =
      some (TendermintConsensusState.new [1] 2 [3]) :=
  consensus_store_append_only
    (put_penumbra_consensus_state ⟨0, 1⟩
      (TendermintConsensusState.new [1] 2 [3]) (fun _ => none))
    _ ⟨0, 1⟩ (TendermintConsensusState.new [1] 2 [3]) ⟨⟨[9], 7, [8], 2⟩⟩
    rfl (by decide) rfl

/-- Claim C6: `begin_block` reads nothing back from chain state: two runs
with the same header from any two states store the same record at the
same height, and that record is derived from the header alone. -/
theorem begin_block_write_depends_only_on_header
    (s1 s2 s1' s2' : ChainState) (bb : BeginBlock)
    (h1 : IBCComponent.begin_block s1 bb = .ok s1')
    (h2 : IBCComponent.begin_block s2 bb = .ok s2') :
    get_penumbra_consensus_state ⟨0, bb.header.height⟩ s1' =
      get_penumbra_consensus_state ⟨0, bb.header.height⟩ s2' ∧
    get_penumbra_consensus_state ⟨0, bb.header.height⟩ s1' =
      some (recordOfHeader bb.header) := by
  rw [begin_block_eq_ok s1 bb (height_ne_zero_of_begin_block_ok s1 s1' bb h1)]
    at h1
  rw [begin_block_eq_ok s2 bb (height_ne_zero_of_begin_block_ok s2 s2' bb h2)]
    at h2
  injection h1 with h1
  injection h2 with h2
  subst h1
  subst h2
  exact ⟨(get_put_same _ _ _).trans (get_put_same _ _ _).symm,
    get_put_same _ _ _⟩

/-- Claim C6 witness: the same block at height 4, processed over the empty
state and over a state already holding a client counter, stores the same
record. -/
theorem begin_block_write_depends_only_on_header_witness :
    get_penumbra_consensus_state ⟨0, 4⟩
      (put_penumbra_consensus_state ⟨0, 4⟩ (recordOfHeader ⟨[5], 6, [7], 4⟩)
        (fun _ => none)) =
    get_penumbra_consensus_state ⟨0, 4⟩
      (put_penumbra_consensus_state ⟨0, 4⟩ (recordOfHeader ⟨[5], 6, [7], 4⟩)
        (put_client_counter 9 (fun _ => none))) ∧
    get_penumbra_consensus_state ⟨0, 4⟩
      (put_penumbra_consensus_state ⟨0, 4⟩ (recordOfHeader ⟨[5], 6, [7], 4⟩)
        (fun _ => none)) =
      some (recordOfHeader ⟨[5], 6, [7], 4⟩) :=
  begin_block_write_depends_only_on_header (fun _ => none)
    (put_client_counter 9 (fun _ => none)) _ _ ⟨⟨[5], 6, [7], 4⟩⟩ rfl rfl

/-- Claim C9: `begin_block` modifies only the entry at
`Height{0, header.height}`: every other key, the client counter included,
is unchanged. -/
theorem begin_block_frame (s s' : ChainState) (bb : BeginBlock)
    (k : StateKey) (hstep : IBCComponent.begin_block s bb = .ok s')
    (hk : k ≠ .consensusState ⟨0, bb.header.height⟩) :
    s' k = s k ∧ get_client_counter s' = get_client_counter s := by
  rw [begin_block_eq_ok s bb (height_ne_zero_of_begin_block_ok s s' bb hstep)]
    at hstep
  injection hstep with hstep
  subst hstep
  refine ⟨put_cs_frame _ _ _ k hk, ?_⟩
  unfold get_client_counter
  rw [put_cs_frame _ _ _ StateKey.clientCounter (by simp)]

/-- Claim C9 witness: a block at height 2 over a state holding a client
counter and a record at height 1 leaves the entry at height 1 and the
counter unchanged. -/
theorem begin_block_frame_witness :
    put_penumbra_consensus_state ⟨0, 2⟩ (recordOfHeader ⟨[1], 2, [3], 2⟩)
      (put_client_counter 7 (fun _ => none)) (.consensusState ⟨0, 1⟩) =
      put_client_counter 7 (fun _ => none) (.consensusState ⟨0, 1⟩) ∧
    get_client_counter
      (put_penumbra_consensus_state ⟨0, 2⟩ (recordOfHeader ⟨[1], 2, [3], 2⟩)
        (put_client_counter 7 (fun _ => none))) =
      get_client_counter (put_client_counter 7 (fun _ => none)) :=
  begin_block_frame (put_client_counter 7 (fun _ => none)) _
    ⟨⟨[1], 2, [3], 2⟩⟩ (.consensusState ⟨0, 1⟩) rfl (by decide)

/-- Claim C4 counterexample: two headers with the same height 1 but
different app hashes; the second `begin_block` succeeds (no error is
signalled) and the stored record is the second one, not the first: the
first record is silently overwritten, refuting the claim. -/
theorem begin_block_same_height_overwrite_cex :
    IBCComponent.begin_block (fun _ => none) ⟨⟨[1], 0, [], 1⟩⟩ =
      .ok (put_penumbra_consensus_state ⟨0, 1⟩ (recordOfHeader ⟨[1], 0, [], 1⟩)
        (fun _ => none)) ∧
    IBCComponent.begin_block
      (put_penumbra_consensus_state ⟨0, 1⟩ (recordOfHeader ⟨[1], 0, [], 1⟩)
        (fun _ => none)) ⟨⟨[2], 0, [], 1⟩⟩ =
      .ok (put_penumbra_consensus_state ⟨0, 1⟩ (recordOfHeader ⟨[2], 0, [], 1⟩)
        (put_penumbra_consensus_state ⟨0, 1⟩ (recordOfHeader ⟨[1], 0, [], 1⟩)
          (fun _ => none))) ∧
    get_penumbra_consensus_state ⟨0, 1⟩
      (put_penumbra_consensus_state ⟨0, 1⟩ (recordOfHeader ⟨[1], 0, [], 1⟩)
        (fun _ => none)) = some (recordOfHeader ⟨[1], 0, [], 1⟩) ∧
    get_penumbra_consensus_state ⟨0, 1⟩
      (put_penumbra_consensus_state ⟨0, 1⟩ (recordOfHeader ⟨[2], 0, [], 1⟩)
        (put_penumbra_consensus_state ⟨0, 1⟩ (recordOfHeader ⟨[1], 0, [], 1⟩)
          (fun _ => none))) = some (recordOfHeader ⟨[2], 0, [], 1⟩) ∧
    recordOfHeader ⟨[1], 0, [], 1⟩ ≠ recordOfHeader ⟨[2], 0, [], 1⟩ :=
  ⟨rfl, rfl, rfl, rfl, by decide⟩

/-- Claim C4 amended: calling `begin_block` twice with two headers bearing
the same height silently overwrites: the second call signals no error and
afterwards the store holds exactly the record derived from the second
header. -/
theorem begin_block_same_height_overwrites
    (s s1 s2 : ChainState) (bb1 bb2 : BeginBlock)
    (_hsame : bb1.header.height = bb2.header.height)
    (_h1 : IBCComponent.begin_block s bb1 = .ok s1)
    (h2 : IBCComponent.begin_block s1 bb2 = .ok s2) :
    get_penumbra_consensus_state ⟨0, bb2.header.height⟩ s2 =
      some (recordOfHeader bb2.header) := by
  rw [begin_block_eq_ok s1 bb2 (height_ne_zero_of_begin_block_ok s1 s2 bb2 h2)]
    at h2
  injection h2 with h2
  subst h2
  exact get_put_same _ _ _

/-- Claim C4 amended witness: the concrete double write at height 1 ends
with the second record stored. -/
theorem begin_block_same_height_overwrites_witness :
    get_penumbra_consensus_state ⟨0, 1⟩
      (put_penumbra_consensus_state ⟨0, 1⟩ (recordOfHeader ⟨[2], 0, [], 1⟩)
        (put_penumbra_consensus_state ⟨0, 1⟩ (recordOfHeader ⟨[1], 0, [], 1⟩)
          (fun _ => none))) = some (recordOfHeader ⟨[2], 0, [], 1⟩) :=
  begin_block_same_height_overwrites (fun _ => none) _ _
    ⟨⟨[1], 0, [], 1⟩⟩ ⟨⟨[2], 0, [], 1⟩⟩ rfl rfl rfl

end Penumbra
